import Mathlib

/-!
Verification development for the DynamoDB-backed session repository
(`fastapi_auth_jwt/repository/dynamodb.py`).

The remote DynamoDB table is modelled as an association list of session
records (at most one record per key, maintained by the operations).
Remote failures other than the item-not-found condition are modelled by
an explicitly injected fault parameter: `none` means the remote call
succeeds normally, `some f` means the remote store raises failure `f`.
Each repository operation additionally records the list of remote
requests it issues (its trace), so that round-trip counts and
key-forwarding can be stated.
-/

/-- A session record as stored in DynamoDB: the partition key `key`
(a `UnicodeAttribute` hash key) and the payload `value`. -/
structure SessionRecord where
  key : String
  value : String
deriving DecidableEq, Repr

/-- The contents of one DynamoDB table: a list of session records.
The operations maintain the invariant of at most one record per key. -/
abbrev TableState := List SessionRecord

/-- A remote failure other than the item-not-found condition:
connectivity problems, authorization failures, throttling, or the
addressed table being missing. -/
inductive RemoteFault where
  | connectivity
  | authorization
  | throttling
  | tableMissing
deriving DecidableEq, Repr

/-- An error raised by a PynamoDB primitive: either the dedicated
`DoesNotExist` signal of a point lookup, or any other remote failure. -/
inductive PynamoError where
  | doesNotExist
  | remote (f : RemoteFault)
deriving DecidableEq, Repr

/-- One remote request issued against the store. -/
inductive RemoteCall where
  | getItem (key : String)
  | putItem (key value : String)
  | deleteItem (key : String)
deriving DecidableEq, Repr

/-- Whether a remote request is a delete request. -/
def RemoteCall.isDelete : RemoteCall → Bool
  | .deleteItem _ => true
  | _ => false

/-- Point lookup of a key in a table. -/
def TableState.lookupKey (t : TableState) (k : String) : Option SessionRecord :=
  t.find? (fun r => r.key == k)

/-- `SessionModel.get(key)` (PynamoDB `Model.get`): a point lookup by
hash key; raises `DoesNotExist` when no item exists, returns the record
otherwise; any injected remote fault is raised instead. -/
def SessionModel.get (fault : Option RemoteFault) (t : TableState) (k : String) :
    Except PynamoError SessionRecord :=
  match fault with
  | some f => .error (.remote f)
  | none =>
    match t.lookupKey k with
    | some r => .ok r
    | none => .error .doesNotExist

/-- `session.save()` (PynamoDB `Model.save`, a DynamoDB `PutItem`): an
unconditional overwrite of the item with the record's key. -/
def SessionModel.save (fault : Option RemoteFault) (t : TableState) (r : SessionRecord) :
    Except RemoteFault TableState :=
  match fault with
  | some f => .error f
  | none => .ok (r :: t.filter (fun r' => r'.key != r.key))

/-- `session.delete()` (PynamoDB `Model.delete`, a DynamoDB
`DeleteItem`): an unconditional removal of the item with the given key. -/
def SessionModel.deleteItem (fault : Option RemoteFault) (t : TableState) (k : String) :
    Except RemoteFault TableState :=
  match fault with
  | some f => .error f
  | none => .ok (t.filter (fun r => r.key != k))

/-- Outcome of one repository operation: its returned result (or the
propagated remote failure), the table state afterwards, and the trace
of remote requests issued during the call. -/
structure OpResult (α : Type) where
  result : Except RemoteFault α
  state : TableState
  trace : List RemoteCall
deriving Repr

/-- `DynamoDBRepository.get(key)`: `SessionModel.get(key)` inside a
`try`; `DoesNotExist` is converted to `None`, a found record yields its
`value` attribute unmodified, and any other failure propagates. -/
def DynamoDBRepository.get (fault : Option RemoteFault) (t : TableState) (k : String) :
    OpResult (Option String) :=
  match SessionModel.get fault t k with
  | .ok session => ⟨.ok (some session.value), t, [.getItem k]⟩
  | .error .doesNotExist => ⟨.ok none, t, [.getItem k]⟩
  | .error (.remote f) => ⟨.error f, t, [.getItem k]⟩

/-- `DynamoDBRepository.set(key, value)`: constructs
`SessionModel(key=key, value=value)` and calls `save()`, an
unconditional put; any remote failure propagates. -/
def DynamoDBRepository.set (fault : Option RemoteFault) (t : TableState) (k v : String) :
    OpResult Unit :=
  match SessionModel.save fault t ⟨k, v⟩ with
  | .ok t' => ⟨.ok (), t', [.putItem k v]⟩
  | .error f => ⟨.error f, t, [.putItem k v]⟩

/-- `DynamoDBRepository.delete(key)`: `SessionModel.get(key)` inside a
`try`; a found record is deleted via `session.delete()`, `DoesNotExist`
is swallowed (`pass`), and any other failure of either remote call
propagates. `getFault`/`delFault` are the injected faults of the lookup
and of the delete request respectively. -/
def DynamoDBRepository.delete (getFault delFault : Option RemoteFault)
    (t : TableState) (k : String) : OpResult Unit :=
  match SessionModel.get getFault t k with
  | .ok session =>
    match SessionModel.deleteItem delFault t session.key with
    | .ok t' => ⟨.ok (), t', [.getItem k, .deleteItem session.key]⟩
    | .error f => ⟨.error f, t, [.getItem k, .deleteItem session.key]⟩
  | .error .doesNotExist => ⟨.ok (), t, [.getItem k]⟩
  | .error (.remote f) => ⟨.error f, t, [.getItem k]⟩

/-- The configuration consumed by the backend. Modelled from the spec:
the class `DynamoDBConfig` lives in `config/storage.py`, which is not
under `src/`; per the spec it carries the target table name, a region,
and an optional explicit endpoint URL override. -/
structure DynamoDBConfig where
  table_name : String
  region : String
  endpoint_url : Option String
deriving DecidableEq, Repr

/-- Modelled from the spec: the configuration's table-name resolution
(`config/storage.py` is not under `src/`). Per the spec the table name
is "required, defaults to an environment-supplied name if absent": when
no name is supplied, the value of the environment variable
`DynamoDBSessionTableName` is used, falling back to `"session_store"`
(the same variable and fallback the `SessionModel.Meta` class body
reads). `env` is the value of that environment variable. -/
def DynamoDBConfig.ofFields (env : Option String) (supplied : Option String)
    (region : String) (endpoint_url : Option String) : DynamoDBConfig :=
  { table_name := supplied.getD (env.getD "session_store"),
    region := region,
    endpoint_url := endpoint_url }

/-- The process-wide `SessionModel.Meta` state: table name, region and
host, shared by every repository instance in the process. -/
structure MetaState where
  table_name : String
  region : String
  host : Option String
deriving DecidableEq, Repr

/-- The `Meta` class body as evaluated at import time: the table name
comes from the environment variable `DynamoDBSessionTableName` with
fallback `"session_store"`, the region is `"us-east-1"`, and the host
is unset until `setup` binds it. `env` is the value of the environment
variable. -/
def MetaState.imported (env : Option String) : MetaState :=
  { table_name := env.getD "session_store",
    region := "us-east-1",
    host := none }

/-- The remote universe of tables, addressed by their bound
name/region/host description. -/
abbrev World := List (MetaState × TableState)

/-- Look up the table addressed by a `Meta` binding. -/
def World.findTable : World → MetaState → Option TableState
  | [], _ => none
  | (a, t) :: w, m => if a = m then some t else World.findTable w m

/-- Replace the contents of the table addressed by a `Meta` binding. -/
def World.updateTable : World → MetaState → TableState → World
  | [], _, _ => []
  | (a, t) :: w, m, t' =>
    if a = m then (a, t') :: w else (a, t) :: World.updateTable w m t'

/-- The three `Meta` assignments at the top of `SessionModel.setup`:
the shared binding is rebuilt from the configuration's table name,
region and endpoint URL. -/
def SessionModel.bindMeta (config : DynamoDBConfig) : MetaState :=
  { table_name := config.table_name,
    region := config.region,
    host := config.endpoint_url }

/-- `SessionModel.setup(config)`: rebinds the process-wide `Meta` from
the configuration, then `if not cls.exists(): cls.create_table(wait=True)`
— an idempotent existence check followed, only when the table is
absent, by a blocking table creation. `existsFault` and `createFault`
are injected remote failures of the two calls; either failure
propagates. The rebound `Meta` is returned alongside the outcome (the
assignments precede any remote call, so they happen even on failure). -/
def SessionModel.setup (existsFault createFault : Option RemoteFault)
    (config : DynamoDBConfig) (w : World) : MetaState × Except RemoteFault World :=
  let m := SessionModel.bindMeta config
  match existsFault with
  | some f => (m, .error f)
  | none =>
    match w.findTable m with
    | some _ => (m, .ok w)
    | none =>
      match createFault with
      | some f => (m, .error f)
      | none => (m, .ok ((m, []) :: w))

/-- A constructed repository instance: it stores only its own
configuration (`self._config`); every operation goes through the shared
`SessionModel`, not through this field. -/
structure DynamoDBRepository where
  config : DynamoDBConfig
deriving DecidableEq, Repr

/-- `DynamoDBRepository.__init__(config)`: stores the configuration and
calls `SessionModel.setup(config)`. Construction succeeds (the instance
is returned) only when `setup` succeeds; a `setup` failure propagates
and no instance is produced. The new shared `Meta` and world are
returned with the instance. -/
def DynamoDBRepository.init (existsFault createFault : Option RemoteFault)
    (config : DynamoDBConfig) (w : World) :
    Except RemoteFault (DynamoDBRepository × MetaState × World) :=
  match SessionModel.setup existsFault createFault config w with
  | (m, .ok w') => .ok (⟨config⟩, m, w')
  | (_, .error f) => .error f

/-- A process snapshot: the shared `Meta` binding and the remote world. -/
structure Process where
  meta : MetaState
  world : World

/-- `get` at process level: the table is addressed through the shared
`Meta` binding (`SessionModel`); the instance's own `config` field is
never consulted. A missing table is a remote failure, not `DoesNotExist`. -/
def DynamoDBRepository.getP (repo : DynamoDBRepository) (fault : Option RemoteFault)
    (p : Process) (k : String) : Except RemoteFault (Option String) :=
  match p.world.findTable p.meta with
  | none => .error .tableMissing
  | some t => (DynamoDBRepository.get fault t k).result

/-- `set` at process level: addresses the table through the shared
`Meta` binding and returns the updated process. -/
def DynamoDBRepository.setP (repo : DynamoDBRepository) (fault : Option RemoteFault)
    (p : Process) (k v : String) : Except RemoteFault Process :=
  match p.world.findTable p.meta with
  | none => .error .tableMissing
  | some t =>
    match DynamoDBRepository.set fault t k v with
    | ⟨.ok _, t', _⟩ => .ok ⟨p.meta, p.world.updateTable p.meta t'⟩
    | ⟨.error f, _, _⟩ => .error f

/-- `delete` at process level: addresses the table through the shared
`Meta` binding and returns the updated process. -/
def DynamoDBRepository.deleteP (repo : DynamoDBRepository)
    (getFault delFault : Option RemoteFault) (p : Process) (k : String) :
    Except RemoteFault Process :=
  match p.world.findTable p.meta with
  | none => .error .tableMissing
  | some t =>
    match DynamoDBRepository.delete getFault delFault t k with
    | ⟨.ok _, t', _⟩ => .ok ⟨p.meta, p.world.updateTable p.meta t'⟩
    | ⟨.error f, _, _⟩ => .error f

/-! Helper lemmas about lookups, filters and the shared `Meta` binding. -/

theorem lookupKey_filter_self (t : TableState) (k : String) :
    TableState.lookupKey (t.filter (fun r => r.key != k)) k = none := by
  induction t with
  | nil => rfl
  | cons r t ih =>
    by_cases h : r.key = k
    · simp [List.filter_cons, h, ih]
    · simp [TableState.lookupKey, List.filter_cons, List.find?_cons, h, ih]

theorem countP_filter_self (t : TableState) (k : String) :
    (t.filter (fun r => r.key != k)).countP (fun r => r.key == k) = 0 := by
  rw [List.countP_eq_zero]
  intro r hr
  simp only [List.mem_filter, bne_iff_ne, ne_eq] at hr
  simp [hr.2]

theorem lookupKey_key_eq (t : TableState) (k : String) (r : SessionRecord)
    (h : TableState.lookupKey t k = some r) : r.key = k := by
  have hp := List.find?_some h
  simpa using hp

theorem setup_fst (ef cf : Option RemoteFault) (config : DynamoDBConfig) (w : World) :
    (SessionModel.setup ef cf config w).1 = SessionModel.bindMeta config := by
  unfold SessionModel.setup
  cases ef with
  | some f => rfl
  | none =>
    cases h : World.findTable w (SessionModel.bindMeta config) with
    | some t => simp [h]
    | none => cases cf <;> simp [h]

/-! The claims. -/

/-- Claim C1: for every key `k` and value `v`, `set(k, v)` on the
store followed by `get(k)` on the resulting store succeeds and returns
exactly `v` (the value attribute's content unmodified). -/
theorem C1_set_then_get (t : TableState) (k v : String) :
    (DynamoDBRepository.set none t k v).result = Except.ok () ∧
    (DynamoDBRepository.get none (DynamoDBRepository.set none t k v).state k).result
      = Except.ok (some v) := by
  refine ⟨rfl, ?_⟩
  simp [DynamoDBRepository.set, DynamoDBRepository.get, SessionModel.save,
    SessionModel.get, TableState.lookupKey, List.find?_cons]

/-- Claim C3: `delete(k)` is idempotent. On a key with no record it
returns successfully with no state change and no extra remote request;
it never errors when the store does not fail; a second immediate
`delete(k)` does not error either; and a subsequent `get(k)` returns
the absent indicator `none`. -/
theorem C3_delete_idempotent (t : TableState) (k : String) :
    (TableState.lookupKey t k = none →
      DynamoDBRepository.delete none none t k
        = ⟨Except.ok (), t, [RemoteCall.getItem k]⟩) ∧
    (DynamoDBRepository.delete none none t k).result = Except.ok () ∧
    (DynamoDBRepository.delete none none
        (DynamoDBRepository.delete none none t k).state k).result = Except.ok () ∧
    (DynamoDBRepository.get none
        (DynamoDBRepository.delete none none t k).state k).result = Except.ok none := by
  cases h : TableState.lookupKey t k with
  | none =>
    refine ⟨fun _ => ?_, ?_, ?_, ?_⟩ <;>
      simp [DynamoDBRepository.delete, DynamoDBRepository.get, SessionModel.get,
        SessionModel.deleteItem, h]
  | some r =>
    have hk : r.key = k := lookupKey_key_eq t k r h
    have hrest : TableState.lookupKey (t.filter (fun r' => r'.key != k)) k = none :=
      lookupKey_filter_self t k
    refine ⟨fun hc => absurd hc (by simp), ?_, ?_, ?_⟩ <;>
      simp [DynamoDBRepository.delete, DynamoDBRepository.get, SessionModel.get,
        SessionModel.deleteItem, h, hk, hrest]

/-- Claim C3 witness: the conditional part evaluated on the empty
store and a concrete key. -/
theorem C3_delete_idempotent_witness :
    DynamoDBRepository.delete none none [] "k"
      = ⟨Except.ok (), [], [RemoteCall.getItem "k"]⟩ :=
  (C3_delete_idempotent [] "k").1 rfl

/-- Claim C4: last write wins. `set(k, v1)` then `set(k, v2)` then
`get(k)` returns `v2`, and after any `set(k, v)` exactly one live
record with key `k` exists (the put replaces, it does not merge). -/
theorem C4_last_write_wins (t : TableState) (k v1 v2 : String) :
    (DynamoDBRepository.get none
        (DynamoDBRepository.set none
          (DynamoDBRepository.set none t k v1).state k v2).state k).result
      = Except.ok (some v2) ∧
    (∀ (t' : TableState) (v : String),
      ((DynamoDBRepository.set none t' k v).state.countP (fun r => r.key == k)) = 1) := by
  constructor
  · simp [DynamoDBRepository.set, DynamoDBRepository.get, SessionModel.save,
      SessionModel.get, TableState.lookupKey, List.find?_cons]
  · intro t' v
    simp [DynamoDBRepository.set, SessionModel.save, List.countP_cons,
      countP_filter_self t' k]

/-- Claim C2: only the not-found condition is downgraded. `get(k)` on
an absent key returns the absent indicator `none` without raising;
every other remote failure `f` raised during `get`, `set`, or `delete`
(during the lookup or during the delete request on a found record)
propagates to the caller unmodified. -/
theorem C2_error_propagation (t : TableState) (k v : String) (f : RemoteFault) :
    (TableState.lookupKey t k = none →
      (DynamoDBRepository.get none t k).result = Except.ok none) ∧
    (DynamoDBRepository.get (some f) t k).result = Except.error f ∧
    (DynamoDBRepository.set (some f) t k v).result = Except.error f ∧
    (∀ delFault, (DynamoDBRepository.delete (some f) delFault t k).result
      = Except.error f) ∧
    (∀ r, TableState.lookupKey t k = some r →
      (DynamoDBRepository.delete none (some f) t k).result = Except.error f) := by
  refine ⟨fun h => ?_, rfl, rfl, fun delFault => rfl, fun r h => ?_⟩
  · simp [DynamoDBRepository.get, SessionModel.get, h]
  · simp [DynamoDBRepository.delete, SessionModel.get, SessionModel.deleteItem, h]

/-- Claim C2 witness: the conditional parts evaluated on a concrete
store, key and fault. -/
theorem C2_error_propagation_witness :
    (DynamoDBRepository.get none [] "k").result = Except.ok none ∧
    (DynamoDBRepository.delete none (some RemoteFault.throttling)
        [⟨"k", "v"⟩] "k").result = Except.error RemoteFault.throttling :=
  ⟨(C2_error_propagation [] "k" "v" RemoteFault.throttling).1 rfl,
   (C2_error_propagation [⟨"k", "v"⟩] "k" "v" RemoteFault.throttling).2.2.2.2
     ⟨"k", "v"⟩ rfl⟩

/-- Claim C5 counterexample: `delete` on a key whose record exists
issues two remote requests (a point lookup, then a delete), not
exactly one: its trace has length two. -/
theorem C5_counterexample :
    (DynamoDBRepository.delete none none [⟨"a", "1"⟩] "a").trace
      = [RemoteCall.getItem "a", RemoteCall.deleteItem "a"] := by
  decide

/-- Claim C5 as amended: `get` and `set` each perform exactly one
remote round trip; `delete` performs one round trip (the lookup) when
the lookup fails or reports not-found, and two (the lookup, then the
delete request) when a record is found; no operation retries any
remote request internally. -/
theorem C5_round_trips (fault getFault delFault : Option RemoteFault)
    (t : TableState) (k v : String) :
    (DynamoDBRepository.get fault t k).trace = [RemoteCall.getItem k] ∧
    (DynamoDBRepository.set fault t k v).trace = [RemoteCall.putItem k v] ∧
    (∀ f, getFault = some f →
      (DynamoDBRepository.delete getFault delFault t k).trace = [RemoteCall.getItem k]) ∧
    (getFault = none → TableState.lookupKey t k = none →
      (DynamoDBRepository.delete getFault delFault t k).trace = [RemoteCall.getItem k]) ∧
    (∀ r, getFault = none → TableState.lookupKey t k = some r →
      (DynamoDBRepository.delete getFault delFault t k).trace
        = [RemoteCall.getItem k, RemoteCall.deleteItem k]) := by
  refine ⟨?_, ?_, fun f hf => ?_, fun hg hl => ?_, fun r hg hl => ?_⟩
  · cases fault with
    | some f => rfl
    | none =>
      cases hl : TableState.lookupKey t k <;>
        simp [DynamoDBRepository.get, SessionModel.get, hl]
  · cases fault <;> rfl
  · subst hf; rfl
  · subst hg
    simp [DynamoDBRepository.delete, SessionModel.get, hl]
  · subst hg
    have hk : r.key = k := lookupKey_key_eq t k r hl
    cases delFault <;>
      simp [DynamoDBRepository.delete, SessionModel.get, SessionModel.deleteItem, hl, hk]

/-- Claim C5 witness: the conditional parts of the round-trip count
evaluated on concrete stores and keys. -/
theorem C5_round_trips_witness :
    (DynamoDBRepository.delete (some RemoteFault.connectivity) none [] "k").trace
      = [RemoteCall.getItem "k"] ∧
    (DynamoDBRepository.delete none none [] "k").trace = [RemoteCall.getItem "k"] ∧
    (DynamoDBRepository.delete none none [⟨"k", "v"⟩] "k").trace
      = [RemoteCall.getItem "k", RemoteCall.deleteItem "k"] :=
  ⟨(C5_round_trips (some RemoteFault.connectivity) (some RemoteFault.connectivity)
      none [] "k" "v").2.2.1 RemoteFault.connectivity rfl,
   (C5_round_trips none none none [] "k" "v").2.2.2.1 rfl rfl,
   (C5_round_trips none none none [⟨"k", "v"⟩] "k" "v").2.2.2.2 ⟨"k", "v"⟩ rfl rfl⟩

/-- Claim C9: no local input validation. For every key, the empty
string included, each operation's first (and for `get`/`set` only)
remote request carries the key unchanged, and no locally raised
`InvalidInput` error exists: the operations are total and their
outcome is determined solely by the store's responses. -/
theorem C9_no_local_validation (fault getFault delFault : Option RemoteFault)
    (t : TableState) (k v : String) :
    (DynamoDBRepository.get fault t k).trace.head? = some (RemoteCall.getItem k) ∧
    (DynamoDBRepository.set fault t k v).trace.head? = some (RemoteCall.putItem k v) ∧
    (DynamoDBRepository.delete getFault delFault t k).trace.head?
      = some (RemoteCall.getItem k) := by
  refine ⟨?_, ?_, ?_⟩
  · cases fault with
    | some f => rfl
    | none =>
      cases hl : TableState.lookupKey t k <;>
        simp [DynamoDBRepository.get, SessionModel.get, hl]
  · cases fault <;> rfl
  · cases getFault with
    | some f => rfl
    | none =>
      cases hl : TableState.lookupKey t k with
      | none => simp [DynamoDBRepository.delete, SessionModel.get, hl]
      | some r =>
        cases delFault <;>
          simp [DynamoDBRepository.delete, SessionModel.get, SessionModel.deleteItem, hl]

/-- Claim C10: the delete operation is atomic with respect to failures
of its lookup phase. If the lookup raises any failure other than
`DoesNotExist`, the operation returns that failure with the stored
data unchanged and no delete request in its trace; a delete request is
issued exactly when the lookup was fault-free and found a record. -/
theorem C10_delete_lookup_atomic (t : TableState) (k : String) :
    (∀ f delFault, DynamoDBRepository.delete (some f) delFault t k
      = ⟨Except.error f, t, [RemoteCall.getItem k]⟩) ∧
    (∀ getFault delFault,
      (DynamoDBRepository.delete getFault delFault t k).trace.any RemoteCall.isDelete
        ↔ getFault = none ∧ (TableState.lookupKey t k).isSome) := by
  refine ⟨fun f delFault => rfl, fun getFault delFault => ?_⟩
  cases getFault with
  | some f => simp [DynamoDBRepository.delete, SessionModel.get, RemoteCall.isDelete]
  | none =>
    cases hl : TableState.lookupKey t k with
    | none => simp [DynamoDBRepository.delete, SessionModel.get, hl, RemoteCall.isDelete]
    | some r =>
      cases delFault <;>
        simp [DynamoDBRepository.delete, SessionModel.get, SessionModel.deleteItem, hl,
          RemoteCall.isDelete]

/-- Claim C6: provisioning at construction. `setup` binds table name,
region and endpoint from the configuration into the shared `Meta`; on
a world where that table is absent and the store does not fail, it
creates the table, which exists afterwards; when the table already
exists nothing is created (idempotent existence check); a failure of
the existence check or of table creation propagates out of the
constructor and no instance is returned. -/
theorem C6_provisioning (config : DynamoDBConfig) (w : World) :
    ((SessionModel.bindMeta config).table_name = config.table_name ∧
     (SessionModel.bindMeta config).region = config.region ∧
     (SessionModel.bindMeta config).host = config.endpoint_url) ∧
    (World.findTable w (SessionModel.bindMeta config) = none →
      (SessionModel.setup none none config w).2
        = Except.ok ((SessionModel.bindMeta config, []) :: w) ∧
      World.findTable ((SessionModel.bindMeta config, []) :: w)
        (SessionModel.bindMeta config) = some []) ∧
    (∀ t0, World.findTable w (SessionModel.bindMeta config) = some t0 →
      (SessionModel.setup none none config w).2 = Except.ok w) ∧
    (∀ f createFault,
      DynamoDBRepository.init (some f) createFault config w = Except.error f) ∧
    (∀ f, World.findTable w (SessionModel.bindMeta config) = none →
      DynamoDBRepository.init none (some f) config w = Except.error f) := by
  refine ⟨⟨rfl, rfl, rfl⟩, fun h => ⟨?_, ?_⟩, fun t0 h => ?_,
    fun f createFault => rfl, fun f h => ?_⟩
  · simp [SessionModel.setup, h]
  · simp [World.findTable]
  · simp [SessionModel.setup, h]
  · simp [DynamoDBRepository.init, SessionModel.setup, h]

/-- Claim C6 witness: on the empty world, fault-free setup creates the
table, and a creation failure makes the constructor fail. -/
theorem C6_provisioning_witness :
    (SessionModel.setup none none ⟨"session_store", "us-east-1", none⟩ []).2
      = Except.ok [(SessionModel.bindMeta ⟨"session_store", "us-east-1", none⟩, [])] ∧
    DynamoDBRepository.init none (some RemoteFault.authorization)
        ⟨"session_store", "us-east-1", none⟩ []
      = Except.error RemoteFault.authorization :=
  ⟨((C6_provisioning ⟨"session_store", "us-east-1", none⟩ []).2.1 rfl).1,
   (C6_provisioning ⟨"session_store", "us-east-1", none⟩ []).2.2.2.2
     RemoteFault.authorization rfl⟩

/-- Claim C7: the `Meta` binding is process-wide shared state, not
instance-scoped. After a second successful construction with a
different configuration, the shared binding is the second
configuration's, and every instance's operations — the first
instance's included, even though it stores its own configuration —
address the store through that shared binding, so they agree with the
second instance's operations. -/
theorem C7_shared_meta (ef1 cf1 ef2 cf2 : Option RemoteFault)
    (cfg1 cfg2 : DynamoDBConfig) (w w1 w2 : World)
    (r1 r2 : DynamoDBRepository) (m1 m2 : MetaState)
    (h1 : DynamoDBRepository.init ef1 cf1 cfg1 w = Except.ok (r1, m1, w1))
    (h2 : DynamoDBRepository.init ef2 cf2 cfg2 w1 = Except.ok (r2, m2, w2)) :
    r1.config = cfg1 ∧
    m2 = SessionModel.bindMeta cfg2 ∧
    (∀ fault k, DynamoDBRepository.getP r1 fault ⟨m2, w2⟩ k
        = DynamoDBRepository.getP r2 fault ⟨m2, w2⟩ k) ∧
    (∀ fault k v, DynamoDBRepository.setP r1 fault ⟨m2, w2⟩ k v
        = DynamoDBRepository.setP r2 fault ⟨m2, w2⟩ k v) ∧
    (∀ gf df k, DynamoDBRepository.deleteP r1 gf df ⟨m2, w2⟩ k
        = DynamoDBRepository.deleteP r2 gf df ⟨m2, w2⟩ k) := by
  have key : ∀ (ef cf : Option RemoteFault) (cfg : DynamoDBConfig) (w0 w' : World)
      (r : DynamoDBRepository) (m : MetaState),
      DynamoDBRepository.init ef cf cfg w0 = Except.ok (r, m, w') →
      r.config = cfg ∧ m = SessionModel.bindMeta cfg := by
    intro ef cf cfg w0 w' r m h
    unfold DynamoDBRepository.init at h
    rcases hs : SessionModel.setup ef cf cfg w0 with ⟨mm, res⟩
    rw [hs] at h
    cases res with
    | error f => exact absurd h (by simp)
    | ok wr =>
      have hm : mm = SessionModel.bindMeta cfg := by
        have hfst := setup_fst ef cf cfg w0
        rw [hs] at hfst
        exact hfst
      simp only [Except.ok.injEq, Prod.mk.injEq] at h
      obtain ⟨hr, hmm, _⟩ := h
      exact ⟨by rw [← hr], by rw [← hmm, hm]⟩
  exact ⟨(key _ _ _ _ _ _ _ h1).1, (key _ _ _ _ _ _ _ h2).2,
    fun fault k => rfl, fun fault k v => rfl, fun gf df k => rfl⟩

/-- Claim C7 witness: two concrete constructions (tables `t1` then
`t2`); afterwards the shared binding is the second configuration's and
the first instance's `get` agrees with the second instance's. -/
theorem C7_shared_meta_witness :
    (DynamoDBRepository.mk ⟨"t1", "us-east-1", none⟩).config
      = (⟨"t1", "us-east-1", none⟩ : DynamoDBConfig) ∧
    (⟨"t2", "us-east-1", none⟩ : MetaState)
      = SessionModel.bindMeta ⟨"t2", "us-east-1", none⟩ ∧
    DynamoDBRepository.getP ⟨⟨"t1", "us-east-1", none⟩⟩ none
        ⟨⟨"t2", "us-east-1", none⟩,
         [(⟨"t2", "us-east-1", none⟩, []), (⟨"t1", "us-east-1", none⟩, [])]⟩ "k"
      = DynamoDBRepository.getP ⟨⟨"t2", "us-east-1", none⟩⟩ none
        ⟨⟨"t2", "us-east-1", none⟩,
         [(⟨"t2", "us-east-1", none⟩, []), (⟨"t1", "us-east-1", none⟩, [])]⟩ "k" := by
  have h := C7_shared_meta none none none none
    ⟨"t1", "us-east-1", none⟩ ⟨"t2", "us-east-1", none⟩
    [] [(⟨"t1", "us-east-1", none⟩, [])]
    [(⟨"t2", "us-east-1", none⟩, []), (⟨"t1", "us-east-1", none⟩, [])]
    ⟨⟨"t1", "us-east-1", none⟩⟩ ⟨⟨"t2", "us-east-1", none⟩⟩
    ⟨"t1", "us-east-1", none⟩ ⟨"t2", "us-east-1", none⟩ rfl
    (by simp [DynamoDBRepository.init, SessionModel.setup, World.findTable,
      SessionModel.bindMeta])
  exact ⟨h.1, h.2.1, h.2.2.1 none "k"⟩

/-- Claim C8: the bound table name. The `Meta` class body sources its
default from the environment variable `DynamoDBSessionTableName` with
fallback `"session_store"`; a configuration without an explicitly
supplied table name binds that same environment-sourced default, and a
configuration that supplies a name binds exactly the supplied name. -/
theorem C8_table_name_default (env : Option String) (region : String)
    (ep : Option String) (w : World) (ef cf : Option RemoteFault) :
    (MetaState.imported env).table_name = env.getD "session_store" ∧
    (SessionModel.setup ef cf (DynamoDBConfig.ofFields env none region ep) w).1.table_name
      = env.getD "session_store" ∧
    (∀ n, (SessionModel.setup ef cf
        (DynamoDBConfig.ofFields env (some n) region ep) w).1.table_name = n) := by
  refine ⟨rfl, ?_, fun n => ?_⟩ <;>
    simp [setup_fst, SessionModel.bindMeta, DynamoDBConfig.ofFields]
